import Mathlib

/-!
Verification of the Local Agent Chat Python SDK (src/sdk/python/agent_chat.py)
against its natural-language specification.

Modelling conventions:
* A Python 3 string is a sequence of code points; it is embedded as `List Char`
  (written `PyStr`).  Python slicing (`line[6:]`), `len`, `count` and
  `startswith` become `List.drop`, `List.length`, `List.count` and
  `List.isPrefixOf` on that representation.
* Python's `json.loads` (standard library, not part of this repository) is
  embedded as an executable recursive-descent parser `jsonParse` over the JSON
  grammar that `json.loads` accepts on these inputs.  JSON numbers (Python
  `int`/`float` literals) are represented as rationals; the `NaN`/`Infinity`
  extensions of `json.loads` and surrogate-pair decoding of `\uXXXX` escapes
  are not modelled (no claim exercises them).
* Python dictionaries are embedded as association lists with Python's
  insertion-order semantics: assigning to an existing key keeps its position,
  assigning to a fresh key appends.
-/

/-- A Python 3 string: a finite sequence of code points. -/
abbrev PyStr := List Char

/-- Code points of a Lean string literal, used to write concrete Python strings. -/
def pystr (s : String) : PyStr := s.data

/-- Whitespace stripped by Python's `str.strip()` (ASCII subset; the claims only
exercise spaces and tabs). -/
def isPySpace (c : Char) : Bool :=
  c = ' ' || c = '\t' || c = '\n' || c = '\r' || c = '\x0b' || c = '\x0c'

/-- Model of Python's `str.strip()`: remove leading and trailing whitespace. -/
def pyStrip (s : PyStr) : PyStr :=
  ((s.dropWhile isPySpace).reverse.dropWhile isPySpace).reverse

/-- A decoded JSON value, as produced by Python's `json.loads`.  `num` covers
both Python `int` and `float` results of numeric literals. -/
inductive Json where
  | null : Json
  | bool : Bool → Json
  | num : ℚ → Json
  | str : PyStr → Json
  | arr : List Json → Json
  | obj : List (PyStr × Json) → Json

/-- Key lookup in a decoded JSON object (Python `d[k]` / `k in d`). -/
def jsonLookup (k : PyStr) : List (PyStr × Json) → Option Json
  | [] => none
  | kv :: rest => if kv.1 == k then some kv.2 else jsonLookup k rest

/-- Python dict assignment `d[k] = v`: replace in place if the key exists,
otherwise append (insertion order preserved). -/
def objInsert (kvs : List (PyStr × Json)) (k : PyStr) (v : Json) :
    List (PyStr × Json) :=
  if kvs.any (fun kv => kv.1 == k) then
    kvs.map (fun kv => if kv.1 == k then (kv.1, v) else kv)
  else kvs ++ [(k, v)]

/-- JSON insignificant whitespace. -/
def isJsonWs (c : Char) : Bool :=
  c = ' ' || c = '\t' || c = '\n' || c = '\r'

/-- Skip insignificant whitespace. -/
def skipWs : PyStr → PyStr
  | [] => []
  | c :: cs => if isJsonWs c then skipWs cs else c :: cs

/-- Longest leading run of decimal digits, and the remainder. -/
def takeDigits : PyStr → PyStr × PyStr
  | [] => ([], [])
  | c :: cs =>
    if c.isDigit then
      let p := takeDigits cs
      (c :: p.1, p.2)
    else ([], c :: cs)

/-- Numeric value of a digit run. -/
def digitsToNat (ds : PyStr) : Nat :=
  ds.foldl (fun a c => 10 * a + (c.toNat - '0'.toNat)) 0

/-- Value of one hexadecimal digit. -/
def hexVal (c : Char) : Option Nat :=
  if c.isDigit then some (c.toNat - '0'.toNat)
  else if 'a' ≤ c ∧ c ≤ 'f' then some (c.toNat - 'a'.toNat + 10)
  else if 'A' ≤ c ∧ c ≤ 'F' then some (c.toNat - 'A'.toNat + 10)
  else none

/-- Body of a JSON string after the opening quote: content up to the closing
quote, with escape sequences resolved.  Raw control characters are rejected,
as in strict `json.loads`. -/
def parseStringBody : PyStr → Option (PyStr × PyStr)
  | [] => none
  | '"' :: rest => some ([], rest)
  | '\\' :: rest =>
    match rest with
    | 'u' :: h1 :: h2 :: h3 :: h4 :: rest2 =>
      (match hexVal h1, hexVal h2, hexVal h3, hexVal h4 with
       | some a, some b, some c, some d =>
         (match parseStringBody rest2 with
          | some (s, r) =>
            some (Char.ofNat (((a * 16 + b) * 16 + c) * 16 + d) :: s, r)
          | none => none)
       | _, _, _, _ => none)
    | e :: rest2 =>
      let esc : Option Char :=
        if e = '"' then some '"'
        else if e = '\\' then some '\\'
        else if e = '/' then some '/'
        else if e = 'b' then some (Char.ofNat 8)
        else if e = 'f' then some (Char.ofNat 12)
        else if e = 'n' then some '\n'
        else if e = 'r' then some '\r'
        else if e = 't' then some '\t'
        else none
      (match esc with
       | some c =>
         (match parseStringBody rest2 with
          | some (s, r) => some (c :: s, r)
          | none => none)
       | none => none)
    | [] => none
  | c :: rest =>
    if c.toNat < 32 then none
    else
      match parseStringBody rest with
      | some (s, r) => some (c :: s, r)
      | none => none

/-- Fractional part of a JSON number (empty if there is no dot). -/
def parseFrac : PyStr → Option (PyStr × PyStr)
  | '.' :: r =>
    let p := takeDigits r
    if p.1 = [] then none else some (p.1, p.2)
  | cs => some ([], cs)

/-- Exponent part of a JSON number (0 if absent). -/
def parseExp : PyStr → Option (Int × PyStr)
  | [] => some (0, [])
  | c :: r =>
    if c = 'e' ∨ c = 'E' then
      let sp : Int × PyStr :=
        match r with
        | '+' :: rr => (1, rr)
        | '-' :: rr => (-1, rr)
        | _ => (1, r)
      let p := takeDigits sp.2
      if p.1 = [] then none else some (sp.1 * (digitsToNat p.1 : Nat), p.2)
    else some (0, c :: r)

/-- Ten to an integer power, as a rational. -/
def tenPow (e : Int) : ℚ :=
  if 0 ≤ e then (10 : ℚ) ^ e.toNat else ((10 : ℚ) ^ (-e).toNat)⁻¹

/-- A JSON number literal per the strict grammar: optional minus, integer part
without leading zeros, optional fraction, optional exponent. -/
def parseNumber (cs : PyStr) : Option (Json × PyStr) :=
  let sp : Bool × PyStr :=
    match cs with
    | '-' :: r => (true, r)
    | _ => (false, cs)
  let ip := takeDigits sp.2
  if ip.1 = [] then none
  else if ip.1.length > 1 ∧ ip.1.head? = some '0' then none
  else
    match parseFrac ip.2 with
    | none => none
    | some (fds, cs3) =>
      match parseExp cs3 with
      | none => none
      | some (e, cs4) =>
        let mag : ℚ :=
          (digitsToNat ip.1 : ℚ) + (digitsToNat fds : ℚ) / (10 : ℚ) ^ fds.length
        some (Json.num ((if sp.1 then -mag else mag) * tenPow e), cs4)

mutual

/-- One JSON value (fuel-bounded recursive descent; the fuel in `jsonParse`
always suffices on inputs `json.loads` accepts). -/
def parseVal : Nat → PyStr → Option (Json × PyStr)
  | 0, _ => none
  | fuel + 1, cs =>
    match skipWs cs with
    | [] => none
    | '{' :: rest =>
      (match skipWs rest with
       | '}' :: r2 => some (Json.obj [], r2)
       | r2 => parseMembers fuel r2 [])
    | '[' :: rest =>
      (match skipWs rest with
       | ']' :: r2 => some (Json.arr [], r2)
       | r2 => parseElems fuel r2 [])
    | '"' :: rest =>
      (match parseStringBody rest with
       | some (s, r) => some (Json.str s, r)
       | none => none)
    | 't' :: rest =>
      if ['r', 'u', 'e'].isPrefixOf rest then some (Json.bool true, rest.drop 3)
      else none
    | 'f' :: rest =>
      if ['a', 'l', 's', 'e'].isPrefixOf rest then some (Json.bool false, rest.drop 4)
      else none
    | 'n' :: rest =>
      if ['u', 'l', 'l'].isPrefixOf rest then some (Json.null, rest.drop 3)
      else none
    | cs1 => parseNumber cs1

/-- Array elements after the opening bracket (nonempty case). -/
def parseElems : Nat → PyStr → List Json → Option (Json × PyStr)
  | 0, _, _ => none
  | fuel + 1, cs, acc =>
    match parseVal fuel cs with
    | none => none
    | some (v, rest) =>
      match skipWs rest with
      | ',' :: r2 => parseElems fuel r2 (acc ++ [v])
      | ']' :: r2 => some (Json.arr (acc ++ [v]), r2)
      | _ => none

/-- Object members after the opening brace (nonempty case); duplicate keys keep
the last value, as in Python dicts. -/
def parseMembers : Nat → PyStr → List (PyStr × Json) → Option (Json × PyStr)
  | 0, _, _ => none
  | fuel + 1, cs, acc =>
    match skipWs cs with
    | '"' :: rest =>
      (match parseStringBody rest with
       | some (k, r1) =>
         (match skipWs r1 with
          | ':' :: r2 =>
            (match parseVal fuel r2 with
             | some (v, r3) =>
               (match skipWs r3 with
                | ',' :: r4 => parseMembers fuel r4 (objInsert acc k v)
                | '}' :: r4 => some (Json.obj (objInsert acc k v), r4)
                | _ => none)
             | none => none)
          | _ => none)
       | none => none)
    | _ => none

end

/-- Model of Python's `json.loads`: parse one JSON document and require that
nothing but whitespace follows it. -/
def jsonParse (s : PyStr) : Option Json :=
  match parseVal (2 * s.length + 4) s with
  | some (v, rest) => if skipWs rest = [] then some v else none
  | none => none

example : jsonParse (pystr "\x7b\"seq\": 7\x7d") = some (Json.obj [(pystr "seq", Json.num 7)]) := by
  with_unfolding_all rfl

example : jsonParse (pystr "not json") = none := by rfl

example : jsonParse (pystr "\x7b\"retry_after_secs\": 2.5\x7d") =
    some (Json.obj [(pystr "retry_after_secs", Json.num (5 / 2))]) := by
  with_unfolding_all rfl

/-!
## Stream Parser (`_stream_sse`, agent_chat.py lines 164-185)

The generator iterates over the response's lines (each `rstrip`-ped of its
trailing newline); the model consumes the list of those decoded lines.
-/

/-- A single Server-Sent Event, the `SSEEvent` dataclass of the SDK.  `data`
holds the `json.loads` result, or the raw joined string when decoding fails
(both are plain Python values of the same runtime kind). -/
structure SSEEvent where
  event : PyStr
  data : Json
  raw : PyStr

/-- Joined multi-line data buffer: `"\n".join(data_lines)`. -/
def joinNL (dataLines : List PyStr) : PyStr :=
  (dataLines.intersperse ['\n']).flatten

/-- Record assembly at a blank line: join the data lines, attempt a strict
JSON decode, and fall back to the raw string on failure. -/
def sseAssemble (eventType : PyStr) (dataLines : List PyStr) : SSEEvent :=
  let rawData := joinNL dataLines
  let parsed : Json :=
    match jsonParse rawData with
    | some j => j
    | none => Json.str rawData
  ⟨eventType, parsed, rawData⟩

/-- The `_stream_sse` line loop: `event_type`/`data_lines` are the pending
state; an `event:` line sets the type, a `data:` line appends a stripped
payload line, a blank line assembles and yields when both a truthy event type
and a nonempty data buffer are pending, then resets; other lines are ignored. -/
def sseLines (eventType : Option PyStr) (dataLines : List PyStr) :
    List PyStr → List SSEEvent
  | [] => []
  | line :: rest =>
    if (pystr "event:").isPrefixOf line then
      sseLines (some (pyStrip (line.drop 6))) dataLines rest
    else if (pystr "data:").isPrefixOf line then
      sseLines eventType (dataLines ++ [pyStrip (line.drop 5)]) rest
    else if line = [] then
      (match eventType with
       | some et =>
         if et ≠ [] ∧ dataLines ≠ [] then
           sseAssemble et dataLines :: sseLines none [] rest
         else sseLines none [] rest
       | none => sseLines none [] rest)
    else sseLines eventType dataLines rest

/-- Events produced by `_stream_sse` over one connection's decoded lines. -/
def streamSSE (lines : List PyStr) : List SSEEvent :=
  sseLines none [] lines

/-- Wire encoding of one `(eventType, payload-lines)` record, as described by
the spec's round-trip property: an `event:` line, one `data:` line per payload
line, and a blank terminator line. -/
def encodeRecord (eventType : PyStr) (payloadLines : List PyStr) : List PyStr :=
  (pystr "event:" ++ eventType) ::
    (payloadLines.map (fun l => pystr "data:" ++ l) ++ [[]])

/-- Wire encoding of a record sequence (spec wording for the round-trip). -/
def encodeSSE (pairs : List (PyStr × List PyStr)) : List PyStr :=
  pairs.foldr (fun p acc => encodeRecord p.1 p.2 ++ acc) []

/-!
## Reconnecting Stream Controller (`stream_reconnecting`, lines 1115-1142)

One loop iteration opens a connection with `after=last_seq`, consumes its
events, and on a caught exception sleeps for the current backoff and doubles
it (capped).  A connection is modelled as the list of events the parser
produced before it ended, plus whether it ended in a caught exception
(`ChatError`/`URLError`/`ConnectionResetError`/`TimeoutError`) or exhausted
normally (in which case the loop re-opens immediately without sleeping).
-/

/-- The controller's persistent loop state: `last_seq` and `backoff`. -/
structure CtrlState where
  lastSeq : Option Json
  backoff : ℚ

/-- Initial controller state: `last_seq = None`, `backoff = 1.0`. -/
def initCtrl : CtrlState := ⟨none, 1⟩

/-- Seq tracking for a consumed (non-heartbeat) event: if the decoded payload
is a dict with a `"seq"` key, store that value as the cursor. -/
def trackSeq (st : CtrlState) (e : SSEEvent) : CtrlState :=
  match e.data with
  | Json.obj kvs =>
    (match jsonLookup (pystr "seq") kvs with
     | some v => { st with lastSeq := some v }
     | none => st)
  | _ => st

/-- The controller's per-event body: reset backoff, skip heartbeats, track the
seq of other events and yield them. -/
def consumeEvent (st : CtrlState) (e : SSEEvent) : CtrlState × List SSEEvent :=
  let st1 : CtrlState := { st with backoff := 1 }
  if e.event = pystr "heartbeat" then (st1, [])
  else (trackSeq st1 e, [e])

/-- Consume one connection's events in order. -/
def runConn (st : CtrlState) : List SSEEvent → CtrlState × List SSEEvent
  | [] => (st, [])
  | e :: rest =>
    let p := consumeEvent st e
    let q := runConn p.1 rest
    (q.1, p.2 ++ q.2)

/-- One connection as observed by the controller. -/
structure Conn where
  events : List SSEEvent
  fails : Bool

/-- Observable trace of a controller run: the events yielded to the caller,
the sleep durations, and the `after=` cursor used to open each connection. -/
structure RunResult where
  yields : List SSEEvent
  sleeps : List ℚ
  cursors : List (Option Json)
  final : CtrlState

/-- The `while True` loop of `stream_reconnecting` over a finite schedule of
connections: each connection is opened with the current cursor; a caught
exception sleeps for the current backoff and doubles it up to `maxBackoff`;
normal exhaustion re-opens immediately. -/
def runConns (maxBackoff : ℚ) (st : CtrlState) : List Conn → RunResult
  | [] => ⟨[], [], [], st⟩
  | c :: cs =>
    let p := runConn st c.events
    if c.fails then
      let st2 : CtrlState := ⟨p.1.lastSeq, min (p.1.backoff * 2) maxBackoff⟩
      let r := runConns maxBackoff st2 cs
      ⟨p.2 ++ r.yields, p.1.backoff :: r.sleeps, st.lastSeq :: r.cursors, r.final⟩
    else
      let r := runConns maxBackoff p.1 cs
      ⟨p.2 ++ r.yields, r.sleeps, st.lastSeq :: r.cursors, r.final⟩

/-!
## Transport error mapping (`_request`, lines 85-149)
-/

mutual

/-- Python `repr()` of a decoded JSON value, as used when exception messages
are built with `str()`/f-strings.  Only the plain-string case of `pyStr` is
exercised by the claims; containers use a `repr`-style rendering and numbers a
rational rendering (an approximation of CPython's numeric formatting, none of
which any claim inspects). -/
def pyRepr : Json → PyStr
  | Json.null => pystr "None"
  | Json.bool true => pystr "True"
  | Json.bool false => pystr "False"
  | Json.num q => pystr (toString q)
  | Json.str s => '\'' :: s ++ ['\'']
  | Json.arr xs => '[' :: (((pyReprList xs).intersperse (pystr ", ")).flatten ++ [']'])
  | Json.obj kvs => '{' :: (((pyReprObj kvs).intersperse (pystr ", ")).flatten ++ ['}'])

/-- Renderings of the elements of a JSON array. -/
def pyReprList : List Json → List PyStr
  | [] => []
  | j :: js => pyRepr j :: pyReprList js

/-- Renderings of the members of a JSON object. -/
def pyReprObj : List (PyStr × Json) → List PyStr
  | [] => []
  | kv :: kvs => ('\'' :: kv.1 ++ ['\''] ++ pystr ": " ++ pyRepr kv.2) :: pyReprObj kvs

end

/-- Python `str()` on a decoded JSON value. -/
def pyStr (j : Json) : PyStr :=
  match j with
  | Json.str s => s
  | j => pyRepr j

/-- The error taxonomy of the SDK: `NotFoundError`, `ConflictError`,
`RateLimitError`, `AuthError` and the base `ChatError`. -/
inductive ChatErrKind where
  | notFound : ChatErrKind
  | conflict : ChatErrKind
  | rateLimit : ChatErrKind
  | auth : ChatErrKind
  | generic : ChatErrKind
  deriving DecidableEq

/-- The data carried by a raised chat error: variant, message (a Python value:
`dict.get` can return non-strings), status code, decoded body, and
`retry_after` (meaningful for the rate-limit variant). -/
structure ChatErrInfo where
  kind : ChatErrKind
  message : Json
  statusCode : Nat
  body : Json
  retryAfter : Json

/-- Body decoding of an HTTP error response: parse the body text as JSON and
fall back to the raw text (lines 112-117; a body that cannot be read or
decoded leaves `body_text` as the empty string). -/
def decodeErrBody (bodyText : PyStr) : Json :=
  match jsonParse bodyText with
  | some j => j
  | none => Json.str bodyText

/-- The `urllib.error.HTTPError` handler of `_request` (lines 111-147): map a
non-2xx status code and body text to the raised error. -/
def classifyHTTPError (code : Nat) (url : PyStr) (bodyText : PyStr) : ChatErrInfo :=
  let bodyJson := decodeErrBody bodyText
  if code = 404 then
    ⟨.notFound, Json.str (pystr "Not found: " ++ url), 404, bodyJson, Json.num 0⟩
  else if code = 409 then
    let msg : Json :=
      match bodyJson with
      | Json.obj kvs => (jsonLookup (pystr "error") kvs).getD (Json.str (pystr "Conflict"))
      | b => Json.str (pyStr b)
    ⟨.conflict, msg, 409, bodyJson, Json.num 0⟩
  else if code = 429 then
    let retry : Json :=
      match bodyJson with
      | Json.obj kvs => (jsonLookup (pystr "retry_after_secs") kvs).getD (Json.num 0)
      | _ => Json.num 0
    ⟨.rateLimit, Json.str (pystr "Rate limited"), 429, bodyJson, retry⟩
  else if code = 401 ∨ code = 403 then
    let msg : Json :=
      match bodyJson with
      | Json.obj kvs => (jsonLookup (pystr "error") kvs).getD (Json.str (pystr "Auth required"))
      | b => Json.str (pyStr b)
    ⟨.auth, msg, code, bodyJson, Json.num 0⟩
  else
    ⟨.generic,
      Json.str (pystr "HTTP " ++ pystr (toString code) ++ pystr ": " ++ pyStr bodyJson),
      code, bodyJson, Json.num 0⟩

/-!
## Header preparation of `_request` (lines 94-98)

`hdrs = headers or {}` aliases the caller's dict exactly when it is truthy
(non-`None` and non-empty); `hdrs.setdefault("Content-Type", ...)` then
mutates whatever `hdrs` refers to.  The model returns both the headers used
for the request and the contents of the caller's dict after the call.
-/

/-- Python `dict.setdefault`: keep an existing key, append a missing one. -/
def setdefault (hdrs : List (PyStr × PyStr)) (key val : PyStr) :
    List (PyStr × PyStr) :=
  if hdrs.any (fun kv => kv.1 == key) then hdrs else hdrs ++ [(key, val)]

/-- Outcome of the header-preparation prologue. -/
structure HeaderOutcome where
  sent : List (PyStr × PyStr)
  callerAfter : Option (List (PyStr × PyStr))

/-- `_request`'s header handling: `hdrs = headers or {}`, then, when a body is
present, `hdrs.setdefault("Content-Type", "application/json")`. -/
def prepareHeaders (headers : Option (List (PyStr × PyStr))) (hasData : Bool) :
    HeaderOutcome :=
  let aliased : Bool :=
    match headers with
    | some h => !h.isEmpty
    | none => false
  let hdrs : List (PyStr × PyStr) :=
    match headers with
    | some h => if h.isEmpty then [] else h
    | none => []
  let hdrs1 :=
    if hasData then setdefault hdrs (pystr "Content-Type") (pystr "application/json")
    else hdrs
  ⟨hdrs1, if aliased then some hdrs1 else headers⟩

/-!
## Room resolution (`_resolve_room`, lines 248-262)
-/

/-- Python dict assignment for the name→id cache. -/
def dictInsert (cache : List (PyStr × PyStr)) (k v : PyStr) :
    List (PyStr × PyStr) :=
  if cache.any (fun kv => kv.1 == k) then
    cache.map (fun kv => if kv.1 == k then (kv.1, v) else kv)
  else cache ++ [(k, v)]

/-- Python dict lookup for the cache. -/
def dictFind (cache : List (PyStr × PyStr)) (k : PyStr) : Option PyStr :=
  (cache.find? (fun kv => kv.1 == k)).map Prod.snd

/-- Outcome of one `_resolve_room` call: the returned id (`none` models the
raised `NotFoundError`), the cache afterwards, and how many listing requests
(`list_rooms`) were made. -/
structure ResolveOutcome where
  result : Option PyStr
  cache : List (PyStr × PyStr)
  listingRequests : Nat

/-- `_resolve_room`: a string of length 36 containing exactly 4 dashes passes
through unchanged; otherwise the cache is consulted, refreshed from the full
room listing (name→id pairs) on a miss, and consulted again. -/
def resolveRoom (serverRooms : List (PyStr × PyStr))
    (cache : List (PyStr × PyStr)) (room : PyStr) : ResolveOutcome :=
  if room.length = 36 ∧ room.count '-' = 4 then
    ⟨some room, cache, 0⟩
  else
    match dictFind cache room with
    | some i => ⟨some i, cache, 0⟩
    | none =>
      let cache1 := serverRooms.foldl (fun c r => dictInsert c r.1 r.2) cache
      match dictFind cache1 room with
      | some i => ⟨some i, cache1, 1⟩
      | none => ⟨none, cache1, 1⟩

/-- The claim's canonical identifier shape: 36 characters, exactly 4 separator
characters, sitting in the fixed UUID positions 8, 13, 18 and 23.  (Spec-side
definition, for comparison with the code's weaker length-and-count check.) -/
def uuidShapeSpec (s : PyStr) : Bool :=
  s.length == 36 && s.count '-' == 4 &&
    ((s.getD 8 ' ' == '-') && (s.getD 13 ' ' == '-') &&
      (s.getD 18 ' ' == '-') && (s.getD 23 ' ' == '-'))

example :
    streamSSE (encodeSSE [(pystr "message", [pystr "hello", pystr "world"])]) =
      [⟨pystr "message", Json.str (pystr "hello\nworld"), pystr "hello\nworld"⟩] := by
  rfl

example :
    (runConns 30 initCtrl
        [⟨[⟨pystr "message", Json.obj [(pystr "seq", Json.num 5)], []⟩], true⟩]).sleeps =
      [1] := by
  rfl

/-!
## Helper lemmas
-/

/-- Seq tracking never touches the backoff field. -/
theorem trackSeq_backoff (st : CtrlState) (e : SSEEvent) :
    (trackSeq st e).backoff = st.backoff := by
  unfold trackSeq
  cases e.data <;> simp
  case obj kvs => cases jsonLookup (pystr "seq") kvs <;> simp

/-- Consuming any event resets the backoff to 1 (line 1132 runs before the
heartbeat check). -/
theorem consumeEvent_backoff (st : CtrlState) (e : SSEEvent) :
    (consumeEvent st e).1.backoff = 1 := by
  unfold consumeEvent
  by_cases h : e.event = pystr "heartbeat" <;> simp [h, trackSeq_backoff]

/-- A heartbeat event does not move the cursor. -/
theorem consumeEvent_heartbeat (st : CtrlState) (e : SSEEvent)
    (h : e.event = pystr "heartbeat") :
    consumeEvent st e = ({ st with backoff := 1 }, []) := by
  unfold consumeEvent
  simp [h]

/-- After a nonempty connection the backoff is 1. -/
theorem runConn_backoff (st : CtrlState) (evs : List SSEEvent) (h : evs ≠ []) :
    (runConn st evs).1.backoff = 1 := by
  induction evs generalizing st with
  | nil => exact absurd rfl h
  | cons e rest ih =>
    cases rest with
    | nil => simpa [runConn] using consumeEvent_backoff st e
    | cons e2 rest2 => simpa [runConn] using ih (consumeEvent st e).1 (by simp)

/-- The events a connection contributes to the caller are exactly its
non-heartbeat events, in order. -/
theorem runConn_yields (st : CtrlState) (evs : List SSEEvent) :
    (runConn st evs).2 = evs.filter (fun e => e.event != pystr "heartbeat") := by
  induction evs generalizing st with
  | nil => rfl
  | cons e rest ih =>
    by_cases h : e.event = pystr "heartbeat"
    · simp [runConn, consumeEvent, h, List.filter, ih]
    · have hb : (e.event != pystr "heartbeat") = true := by simp [bne_iff_ne, h]
      simp [runConn, consumeEvent, h, List.filter, ih, hb]

/-- Running a connection splits over list append. -/
theorem runConn_append (st : CtrlState) (a b : List SSEEvent) :
    runConn st (a ++ b) =
      ((runConn (runConn st a).1 b).1, (runConn st a).2 ++ (runConn (runConn st a).1 b).2) := by
  induction a generalizing st with
  | nil => simp [runConn]
  | cons e rest ih => simp [runConn, ih]

/-- A `message` event carrying an integer-like `seq` value, as used by the
cursor claims. -/
def msgEv (q : ℚ) : SSEEvent :=
  ⟨pystr "message", Json.obj [(pystr "seq", Json.num q)], []⟩

/-- A wire of `message` events with the given `seq` values. -/
def msgEvents (l : List ℚ) : List SSEEvent :=
  l.map msgEv

/-- Consuming a `message` event with `seq = q` stores `q` and resets backoff. -/
theorem consumeEvent_msgEv (st : CtrlState) (q : ℚ) :
    consumeEvent st (msgEv q) = (⟨some (Json.num q), 1⟩, [msgEv q]) := by
  have h : pystr "message" ≠ pystr "heartbeat" := by decide
  simp [consumeEvent, trackSeq, msgEv, jsonLookup, h]

/-- A blank line with a pending nonempty event type and data buffer assembles
and yields one event, then continues with cleared state. -/
theorem sseLines_blank (et : PyStr) (datas : List PyStr) (rest : List PyStr)
    (het : et ≠ []) (hd : datas ≠ []) :
    sseLines (some et) datas ([] :: rest) =
      sseAssemble et datas :: sseLines none [] rest := by
  have h1 : (pystr "event:").isPrefixOf ([] : PyStr) = false := by decide
  have h2 : (pystr "data:").isPrefixOf ([] : PyStr) = false := by decide
  simp only [sseLines, h1, h2]
  simp [het, hd]

/-- An `event:` line sets the pending event type to the stripped remainder. -/
theorem sseLines_eventLine (st : Option PyStr) (datas : List PyStr) (et : PyStr)
    (rest : List PyStr) :
    sseLines st datas ((pystr "event:" ++ et) :: rest) =
      sseLines (some (pyStrip et)) datas rest := by
  have h1 : (pystr "event:").isPrefixOf (pystr "event:" ++ et) = true := by
    simp [pystr, List.isPrefixOf]
  have h2 : (pystr "event:" ++ et).drop 6 = et := by
    simp [pystr]
  simp only [sseLines, h1, if_pos, h2]

/-- A `data:` line appends the stripped remainder to the data buffer. -/
theorem sseLines_dataLine (st : Option PyStr) (datas : List PyStr) (l : PyStr)
    (rest : List PyStr) :
    sseLines st datas ((pystr "data:" ++ l) :: rest) =
      sseLines st (datas ++ [pyStrip l]) rest := by
  have h1 : (pystr "event:").isPrefixOf (pystr "data:" ++ l) = false := by
    simp [pystr, List.isPrefixOf]
  have h2 : (pystr "data:").isPrefixOf (pystr "data:" ++ l) = true := by
    simp [pystr, List.isPrefixOf]
  have h3 : (pystr "data:" ++ l).drop 5 = l := by
    simp [pystr]
  simp only [sseLines, h1, h2, h3]
  simp

/-- Folding a block of `data:` lines accumulates the stripped payload lines. -/
theorem sseLines_dataFold (pls : List PyStr) (acc : List PyStr) (st : Option PyStr)
    (rest : List PyStr) (hs : ∀ l ∈ pls, pyStrip l = l) :
    sseLines st acc ((pls.map (fun l => pystr "data:" ++ l)) ++ rest) =
      sseLines st (acc ++ pls) rest := by
  induction pls generalizing acc with
  | nil => simp
  | cons l pls ih =>
    have hl : pyStrip l = l := hs l (List.mem_cons_self l pls)
    have hrest : ∀ x ∈ pls, pyStrip x = x := fun x hx => hs x (List.mem_cons_of_mem l hx)
    simp only [List.map_cons, List.cons_append, sseLines_dataLine, hl]
    rw [ih (acc ++ [l]) hrest]
    simp

/-- Events yielded over a whole controller run are exactly the non-heartbeat
events of all connections, in order. -/
theorem runConns_yields (maxB : ℚ) (st : CtrlState) (conns : List Conn) :
    (runConns maxB st conns).yields =
      ((conns.map Conn.events).flatten).filter (fun e => e.event != pystr "heartbeat") := by
  induction conns generalizing st with
  | nil => rfl
  | cons c cs ih =>
    by_cases h : c.fails <;>
      simp [runConns, h, runConn_yields, ih, List.filter_append]

/-!
## Claims
-/

/-- C3: for every wire stream (schedule of connections) containing N
keep-alive events and M domain events, the reconnecting controller yields
exactly the M domain (non-heartbeat) events, in order, and never yields a
keep-alive event. -/
theorem c3_heartbeat_suppression (maxB : ℚ) (st : CtrlState) (conns : List Conn) :
    (runConns maxB st conns).yields =
      ((conns.map Conn.events).flatten).filter (fun e => e.event != pystr "heartbeat") ∧
    (runConns maxB st conns).yields.length =
      ((conns.map Conn.events).flatten).countP (fun e => e.event != pystr "heartbeat") := by
  refine ⟨runConns_yields maxB st conns, ?_⟩
  rw [runConns_yields, List.countP_eq_length_filter]

/-- C10: consuming any event — including a heartbeat that is never yielded —
resets the backoff to 1, so a connection that delivers only heartbeats before
failing sleeps 1 time unit even though nothing was yielded to the caller. -/
theorem c10_heartbeat_resets_backoff (maxB : ℚ) (st : CtrlState)
    (evs : List SSEEvent) (hne : evs ≠ [])
    (hall : ∀ e ∈ evs, e.event = pystr "heartbeat") :
    (runConns maxB st [⟨evs, true⟩]).sleeps = [1] ∧
    (runConns maxB st [⟨evs, true⟩]).yields = [] := by
  constructor
  · simp [runConns, runConn_backoff st evs hne]
  · rw [runConns_yields]
    simp only [List.map_cons, List.map_nil, List.flatten_cons, List.flatten_nil,
      List.append_nil]
    rw [List.filter_eq_nil_iff]
    intro e he
    simp [hall e he]

/-- Witness for C10 at a concrete heartbeat-only failing connection entered
with backoff 8: the observed sleep is 1, and nothing is yielded. -/
theorem c10_heartbeat_resets_backoff_witness :
    (runConns 30 ⟨none, 8⟩ [⟨[⟨pystr "heartbeat", Json.null, []⟩], true⟩]).sleeps = [1] ∧
    (runConns 30 ⟨none, 8⟩ [⟨[⟨pystr "heartbeat", Json.null, []⟩], true⟩]).yields = [] :=
  c10_heartbeat_resets_backoff 30 ⟨none, 8⟩ [⟨pystr "heartbeat", Json.null, []⟩]
    (by simp)
    (by intro e he; rw [List.mem_singleton] at he; subst he; rfl)

/-- C2: with initial backoff 1, three consecutive connection failures with no
event between them sleep 1, 2, 4 (doubling, capped at the ceiling), and after
one event is successfully yielded on a new connection the next failure sleeps
1 again (reset, not 8). -/
theorem c2_backoff_growth_reset (maxB : ℚ) (e : SSEEvent)
    (h4 : 4 ≤ maxB) (he : e.event ≠ pystr "heartbeat") :
    (runConns maxB initCtrl [⟨[], true⟩, ⟨[], true⟩, ⟨[], true⟩]).sleeps = [1, 2, 4] ∧
    (runConns maxB initCtrl [⟨[], true⟩, ⟨[], true⟩, ⟨[], true⟩, ⟨[e], true⟩]).sleeps =
      [1, 2, 4, 1] ∧
    (runConns maxB initCtrl [⟨[], true⟩, ⟨[], true⟩, ⟨[], true⟩, ⟨[e], true⟩]).yields =
      [e] := by
  have e2 : min (2 : ℚ) maxB = 2 := min_eq_left (by linarith)
  have e4 : min (4 : ℚ) maxB = 4 := min_eq_left (by linarith)
  refine ⟨?_, ?_, ?_⟩
  · norm_num [runConns, runConn, initCtrl, e2, e4]
  · norm_num [runConns, runConn, initCtrl, e2, e4, consumeEvent_backoff]
  · have hb : (e.event != pystr "heartbeat") = true := bne_iff_ne.mpr he
    rw [runConns_yields]
    simp [List.filter, hb]

/-- Witness for C2 at the default ceiling 30 and a concrete message event. -/
theorem c2_backoff_growth_reset_witness :
    (runConns 30 initCtrl [⟨[], true⟩, ⟨[], true⟩, ⟨[], true⟩]).sleeps = [1, 2, 4] ∧
    (runConns 30 initCtrl
        [⟨[], true⟩, ⟨[], true⟩, ⟨[], true⟩,
         ⟨[⟨pystr "message", Json.null, []⟩], true⟩]).sleeps = [1, 2, 4, 1] ∧
    (runConns 30 initCtrl
        [⟨[], true⟩, ⟨[], true⟩, ⟨[], true⟩,
         ⟨[⟨pystr "message", Json.null, []⟩], true⟩]).yields =
      [⟨pystr "message", Json.null, []⟩] :=
  c2_backoff_growth_reset 30 ⟨pystr "message", Json.null, []⟩ (by norm_num) (by decide)

/-- The cursor after consuming `message` events ending in `seq = x` is `x`
(last write wins). -/
theorem runConn_msgEvents_concat (st : CtrlState) (l : List ℚ) (x : ℚ) :
    (runConn st (msgEvents (l ++ [x]))).1.lastSeq = some (Json.num x) := by
  have hsplit : msgEvents (l ++ [x]) = msgEvents l ++ [msgEv x] := by
    simp [msgEvents]
  rw [hsplit, runConn_append]
  simp [runConn, consumeEvent_msgEv]

/-- When the `seq` values on the wire are nondecreasing, the stored cursor
never drops below its starting value. -/
theorem runConn_msgEvents_mono (b q : ℚ) (l : List ℚ)
    (h : List.Chain' (· ≤ ·) (q :: l)) :
    ∃ r : ℚ,
      (runConn ⟨some (Json.num q), b⟩ (msgEvents l)).1.lastSeq = some (Json.num r) ∧
        q ≤ r := by
  induction l generalizing b q with
  | nil => exact ⟨q, rfl, le_refl q⟩
  | cons p l ih =>
    obtain ⟨hqp, h2⟩ := List.chain'_cons.mp h
    obtain ⟨r, hr, hpr⟩ := ih 1 p h2
    refine ⟨r, ?_, le_trans hqp hpr⟩
    simpa [msgEvents, runConn, consumeEvent_msgEv] using hr

/-- C1 (refuting the claim as stated): consuming `seq` values `[5, 7, 6]`
leaves the cursor at 6 — it moved from 7 down to 6, and the resume cursor used
on the next reconnection is 6, not the maximum 7.  The cursor is the last
`seq` seen, not a maximum, so it can rewind on an out-of-order wire. -/
theorem c1_cursor_counterexample :
    (runConn initCtrl (msgEvents [5, 7])).1.lastSeq = some (Json.num 7) ∧
    (runConn initCtrl (msgEvents [5, 7, 6])).1.lastSeq = some (Json.num 6) ∧
    (runConns 30 initCtrl [⟨msgEvents [5, 7, 6], true⟩, ⟨[], true⟩]).cursors =
      [none, some (Json.num 6)] ∧
    (6 : ℚ) < 7 :=
  ⟨rfl, rfl, rfl, by norm_num⟩

/-- C1 (amended): the stored cursor equals the `seq` of the most recently
consumed event carrying one (not the maximum); in the claim's `[5, 7, 6, 9]`
run the resume cursor is 9, which happens to be the maximum observed; and when
the wire's `seq` values are nondecreasing the cursor never drops below its
starting value. -/
theorem c1_cursor_amended (b q : ℚ) (l : List ℚ)
    (h : List.Chain' (· ≤ ·) (q :: l)) :
    (∀ st : CtrlState, ∀ x : ℚ, ∀ seqs : List ℚ,
        (runConn st (msgEvents (seqs ++ [x]))).1.lastSeq = some (Json.num x)) ∧
    (runConns 30 initCtrl [⟨msgEvents [5, 7, 6, 9], true⟩, ⟨[], true⟩]).cursors =
      [none, some (Json.num 9)] ∧
    (∀ s ∈ [(5 : ℚ), 7, 6, 9], s ≤ 9) ∧
    (∃ r : ℚ,
      (runConn ⟨some (Json.num q), b⟩ (msgEvents l)).1.lastSeq = some (Json.num r) ∧
        q ≤ r) := by
  refine ⟨fun st x seqs => runConn_msgEvents_concat st seqs x, rfl, ?_,
    runConn_msgEvents_mono b q l h⟩
  intro s hs
  fin_cases hs <;> norm_num

/-- Witness for C1 (amended) at the ordered wire `5, 7, 9` entered with
cursor 5 and backoff 1. -/
theorem c1_cursor_amended_witness :
    (∀ st : CtrlState, ∀ x : ℚ, ∀ seqs : List ℚ,
        (runConn st (msgEvents (seqs ++ [x]))).1.lastSeq = some (Json.num x)) ∧
    (runConns 30 initCtrl [⟨msgEvents [5, 7, 6, 9], true⟩, ⟨[], true⟩]).cursors =
      [none, some (Json.num 9)] ∧
    (∀ s ∈ [(5 : ℚ), 7, 6, 9], s ≤ 9) ∧
    (∃ r : ℚ,
      (runConn ⟨some (Json.num 5), 1⟩ (msgEvents [7, 9])).1.lastSeq =
          some (Json.num r) ∧
        (5 : ℚ) ≤ r) :=
  c1_cursor_amended 1 5 [7, 9] (by norm_num [List.chain'_cons])

/-- C8 (refuting the claim as stated): a consumed `message` event whose
payload object carries the non-numeric `seq` value `"x"` still updates the
stored cursor (to the string `"x"`), contradicting "non-numeric seq leaves the
stored cursor unchanged"; the run also shows a heartbeat carrying numeric
`seq = 5` that did not move the cursor. -/
theorem c8_cursor_update_counterexample :
    (runConn initCtrl
        [⟨pystr "heartbeat", Json.obj [(pystr "seq", Json.num 5)], []⟩,
         ⟨pystr "message", Json.obj [(pystr "seq", Json.str (pystr "x"))], []⟩]).1.lastSeq =
      some (Json.str (pystr "x")) ∧
    some (Json.str (pystr "x")) ≠ some (Json.num 5) := by
  refine ⟨rfl, ?_⟩
  simp

/-- C8 (amended): a consumed non-heartbeat event whose decoded payload is a
dict containing a `"seq"` key updates the stored cursor to that value — of
whatever type; heartbeat events and events without a dict payload carrying
`"seq"` leave the cursor unchanged. -/
theorem c8_cursor_update_amended (st : CtrlState) (e : SSEEvent) :
    (e.event ≠ pystr "heartbeat" →
      ∀ kvs v, e.data = Json.obj kvs → jsonLookup (pystr "seq") kvs = some v →
        (consumeEvent st e).1.lastSeq = some v) ∧
    (e.event = pystr "heartbeat" → (consumeEvent st e).1.lastSeq = st.lastSeq) ∧
    ((∀ kvs, e.data = Json.obj kvs → jsonLookup (pystr "seq") kvs = none) →
      (consumeEvent st e).1.lastSeq = st.lastSeq) := by
  refine ⟨?_, ?_, ?_⟩
  · intro hne kvs v hobj hlook
    simp [consumeEvent, hne, trackSeq, hobj, hlook]
  · intro hhb
    simp [consumeEvent, hhb]
  · intro hmiss
    by_cases hhb : e.event = pystr "heartbeat"
    · simp [consumeEvent, hhb]
    · cases hd : e.data with
      | obj kvs => simp [consumeEvent, hhb, trackSeq, hd, hmiss kvs hd]
      | null => simp [consumeEvent, hhb, trackSeq, hd]
      | bool b => simp [consumeEvent, hhb, trackSeq, hd]
      | num q => simp [consumeEvent, hhb, trackSeq, hd]
      | str s => simp [consumeEvent, hhb, trackSeq, hd]
      | arr xs => simp [consumeEvent, hhb, trackSeq, hd]

/-- Witness for C8 (amended) at three concrete events: a message with
`seq = 7` updates the cursor to 7, a heartbeat leaves it `none`, and a message
with a non-dict payload leaves it `none`. -/
theorem c8_cursor_update_amended_witness :
    (consumeEvent initCtrl
        ⟨pystr "message", Json.obj [(pystr "seq", Json.num 7)], []⟩).1.lastSeq =
      some (Json.num 7) ∧
    (consumeEvent initCtrl ⟨pystr "heartbeat", Json.null, []⟩).1.lastSeq = none ∧
    (consumeEvent initCtrl ⟨pystr "message", Json.str (pystr "hi"), []⟩).1.lastSeq =
      none :=
  ⟨(c8_cursor_update_amended initCtrl
        ⟨pystr "message", Json.obj [(pystr "seq", Json.num 7)], []⟩).1
      (by decide) [(pystr "seq", Json.num 7)] (Json.num 7) rfl rfl,
    (c8_cursor_update_amended initCtrl ⟨pystr "heartbeat", Json.null, []⟩).2.1 rfl,
    (c8_cursor_update_amended initCtrl
        ⟨pystr "message", Json.str (pystr "hi"), []⟩).2.2
      (fun kvs h => Json.noConfusion h)⟩

/-- Parsing one well-formed encoded record yields its assembled event and
continues with the remaining lines from a clean state. -/
theorem streamSSE_record (et : PyStr) (pls : List PyStr) (rest : List PyStr)
    (het : et ≠ []) (hset : pyStrip et = et) (hpls : pls ≠ [])
    (hstrip : ∀ l ∈ pls, pyStrip l = l) :
    sseLines none [] (encodeRecord et pls ++ rest) =
      sseAssemble et pls :: sseLines none [] rest := by
  unfold encodeRecord
  rw [List.cons_append, sseLines_eventLine, hset, List.append_assoc,
    List.singleton_append, sseLines_dataFold pls [] (some et) ([] :: rest) hstrip,
    List.nil_append, sseLines_blank et pls rest het hpls]

/-- C4 (refuting the claim as stated): per-line stripping loses surrounding
whitespace — encoding the single pair `("message", [" hi"])` and decoding it
yields raw payload `"hi"`, which does not reconstruct the original line
`" hi"`. -/
theorem c4_roundtrip_counterexample :
    streamSSE (encodeSSE [(pystr "message", [pystr " hi"])]) =
      [⟨pystr "message", Json.str (pystr "hi"), pystr "hi"⟩] ∧
    pystr "hi" ≠ pystr " hi" := by
  exact ⟨rfl, by decide⟩

/-- C4 (amended): for records whose event type is nonempty and
strip-invariant and whose payload lines are nonempty in number and
strip-invariant, decoding the encoded wire yields exactly one event per pair,
in order, with the event type preserved and the raw payload equal to the
original lines joined by a newline. -/
theorem c4_roundtrip_amended (pairs : List (PyStr × List PyStr))
    (hwf : ∀ p ∈ pairs, p.1 ≠ [] ∧ pyStrip p.1 = p.1 ∧ p.2 ≠ [] ∧
      ∀ l ∈ p.2, pyStrip l = l) :
    streamSSE (encodeSSE pairs) = pairs.map (fun p => sseAssemble p.1 p.2) ∧
    (streamSSE (encodeSSE pairs)).map SSEEvent.event = pairs.map Prod.fst ∧
    (streamSSE (encodeSSE pairs)).map SSEEvent.raw =
      pairs.map (fun p => joinNL p.2) := by
  have main : streamSSE (encodeSSE pairs) = pairs.map (fun p => sseAssemble p.1 p.2) := by
    unfold streamSSE
    induction pairs with
    | nil => rfl
    | cons p ps ih =>
      obtain ⟨h1, h2, h3, h4⟩ := hwf p (List.mem_cons_self p ps)
      have hrec : encodeSSE (p :: ps) = encodeRecord p.1 p.2 ++ encodeSSE ps := rfl
      rw [hrec, streamSSE_record p.1 p.2 (encodeSSE ps) h1 h2 h3 h4, List.map_cons,
        ih (fun x hx => hwf x (List.mem_cons_of_mem p hx))]
  refine ⟨main, ?_, ?_⟩
  · rw [main, List.map_map]
    exact List.map_congr_left fun p _ => rfl
  · rw [main, List.map_map]
    exact List.map_congr_left fun p _ => rfl

/-- Witness for C4 (amended) at two concrete records, one with a two-line
payload. -/
theorem c4_roundtrip_amended_witness :
    streamSSE (encodeSSE
        [(pystr "message", [pystr "hello", pystr "world"]), (pystr "edit", [pystr "x"])]) =
      [(pystr "message", [pystr "hello", pystr "world"]),
        (pystr "edit", [pystr "x"])].map (fun p => sseAssemble p.1 p.2) ∧
    (streamSSE (encodeSSE
        [(pystr "message", [pystr "hello", pystr "world"]),
          (pystr "edit", [pystr "x"])])).map SSEEvent.event =
      [(pystr "message", [pystr "hello", pystr "world"]),
        (pystr "edit", [pystr "x"])].map Prod.fst ∧
    (streamSSE (encodeSSE
        [(pystr "message", [pystr "hello", pystr "world"]),
          (pystr "edit", [pystr "x"])])).map SSEEvent.raw =
      [(pystr "message", [pystr "hello", pystr "world"]),
        (pystr "edit", [pystr "x"])].map (fun p => joinNL p.2) :=
  c4_roundtrip_amended
    [(pystr "message", [pystr "hello", pystr "world"]), (pystr "edit", [pystr "x"])]
    (by decide)

/-- C5: a record whose joined data payload fails strict JSON decoding yields
an event whose payload is the raw joined string (no exception), and the
blank-line step still emits it and continues parsing the rest of the stream
unchanged. -/
theorem c5_json_fallback (et : PyStr) (dataLines : List PyStr) (rest : List PyStr)
    (het : et ≠ []) (hd : dataLines ≠ [])
    (hfail : jsonParse (joinNL dataLines) = none) :
    (sseAssemble et dataLines).data = Json.str ((sseAssemble et dataLines).raw) ∧
    (sseAssemble et dataLines).raw = joinNL dataLines ∧
    sseLines (some et) dataLines ([] :: rest) =
      sseAssemble et dataLines :: sseLines none [] rest := by
  refine ⟨?_, rfl, sseLines_blank et dataLines rest het hd⟩
  unfold sseAssemble
  simp [hfail]

/-- Witness for C5 at the undecodable payload `"not json"` followed by a
further record that is still parsed. -/
theorem c5_json_fallback_witness :
    (sseAssemble (pystr "message") [pystr "not json"]).data =
      Json.str ((sseAssemble (pystr "message") [pystr "not json"]).raw) ∧
    (sseAssemble (pystr "message") [pystr "not json"]).raw = joinNL [pystr "not json"] ∧
    sseLines (some (pystr "message")) [pystr "not json"]
        ([] :: encodeRecord (pystr "edit") [pystr "\x7b\x7d"]) =
      sseAssemble (pystr "message") [pystr "not json"] ::
        sseLines none [] (encodeRecord (pystr "edit") [pystr "\x7b\x7d"]) :=
  c5_json_fallback (pystr "message") [pystr "not json"]
    (encodeRecord (pystr "edit") [pystr "\x7b\x7d"]) (by decide) (by decide) (by rfl)

/-- C6: every non-2xx response maps to the `ChatError` variant selected by
status code — 404 to NotFound, 409 to Conflict with the message taken from an
`error` field of a JSON-object body, 429 to RateLimit with `retry_after` from
`retry_after_secs` defaulting to 0, 401/403 to Auth, and anything else to the
generic error carrying the status code and the parsed-or-raw body. -/
theorem c6_error_taxonomy (code : Nat) (url bodyText : PyStr)
    (hcode : code < 200 ∨ 300 ≤ code) :
    (code = 404 →
      (classifyHTTPError code url bodyText).kind = ChatErrKind.notFound ∧
      (classifyHTTPError code url bodyText).statusCode = 404 ∧
      (classifyHTTPError code url bodyText).body = decodeErrBody bodyText) ∧
    (code = 409 →
      (classifyHTTPError code url bodyText).kind = ChatErrKind.conflict ∧
      (classifyHTTPError code url bodyText).statusCode = 409 ∧
      (classifyHTTPError code url bodyText).body = decodeErrBody bodyText ∧
      ∀ kvs v, decodeErrBody bodyText = Json.obj kvs →
        jsonLookup (pystr "error") kvs = some v →
        (classifyHTTPError code url bodyText).message = v) ∧
    (code = 429 →
      (classifyHTTPError code url bodyText).kind = ChatErrKind.rateLimit ∧
      (classifyHTTPError code url bodyText).statusCode = 429 ∧
      (classifyHTTPError code url bodyText).body = decodeErrBody bodyText ∧
      (classifyHTTPError code url bodyText).retryAfter =
        (match decodeErrBody bodyText with
         | Json.obj kvs => (jsonLookup (pystr "retry_after_secs") kvs).getD (Json.num 0)
         | _ => Json.num 0)) ∧
    (code = 401 ∨ code = 403 →
      (classifyHTTPError code url bodyText).kind = ChatErrKind.auth ∧
      (classifyHTTPError code url bodyText).statusCode = code) ∧
    (code ≠ 404 → code ≠ 409 → code ≠ 429 → code ≠ 401 → code ≠ 403 →
      (classifyHTTPError code url bodyText).kind = ChatErrKind.generic ∧
      (classifyHTTPError code url bodyText).statusCode = code ∧
      (classifyHTTPError code url bodyText).body = decodeErrBody bodyText) := by
  refine ⟨?_, ?_, ?_, ?_, ?_⟩
  · rintro rfl
    exact ⟨rfl, rfl, rfl⟩
  · rintro rfl
    refine ⟨rfl, rfl, rfl, ?_⟩
    intro kvs v hobj hlook
    have hmsg : (classifyHTTPError 409 url bodyText).message =
        (match decodeErrBody bodyText with
         | Json.obj kvs => (jsonLookup (pystr "error") kvs).getD (Json.str (pystr "Conflict"))
         | b => Json.str (pyStr b)) := rfl
    rw [hmsg, hobj]
    simp [hlook]
  · rintro rfl
    refine ⟨rfl, rfl, rfl, ?_⟩
    have hre : (classifyHTTPError 429 url bodyText).retryAfter =
        (match decodeErrBody bodyText with
         | Json.obj kvs => (jsonLookup (pystr "retry_after_secs") kvs).getD (Json.num 0)
         | _ => Json.num 0) := rfl
    exact hre
  · rintro (rfl | rfl) <;> exact ⟨rfl, rfl⟩
  · intro h404 h409 h429 h401 h403
    have h45 : ¬(code = 401 ∨ code = 403) := by tauto
    have hgen : classifyHTTPError code url bodyText =
        ⟨ChatErrKind.generic,
          Json.str (pystr "HTTP " ++ pystr (toString code) ++ pystr ": " ++
            pyStr (decodeErrBody bodyText)),
          code, decodeErrBody bodyText, Json.num 0⟩ := by
      simp only [classifyHTTPError]
      rw [if_neg h404, if_neg h409, if_neg h429, if_neg h45]
    exact ⟨by rw [hgen], by rw [hgen], by rw [hgen]⟩

/-- Witness for C6 at the spec's example inputs: 404 with empty body, 409 with
body containing an `error` field, 429 with `retry_after_secs` 2.5, 401, and
500 for the generic fall-through. -/
theorem c6_error_taxonomy_witness :
    (classifyHTTPError 404 (pystr "u") []).kind = ChatErrKind.notFound ∧
    (classifyHTTPError 409 [] (pystr "\x7b\"error\": \"dup\"\x7d")).message =
      Json.str (pystr "dup") ∧
    (classifyHTTPError 429 [] (pystr "\x7b\"retry_after_secs\": 2.5\x7d")).retryAfter =
      Json.num (5 / 2) ∧
    (classifyHTTPError 401 [] []).kind = ChatErrKind.auth ∧
    (classifyHTTPError 500 [] []).kind = ChatErrKind.generic ∧
    (classifyHTTPError 500 [] []).statusCode = 500 :=
  ⟨((c6_error_taxonomy 404 (pystr "u") [] (Or.inr (by norm_num))).1 rfl).1,
    ((c6_error_taxonomy 409 [] (pystr "\x7b\"error\": \"dup\"\x7d")
          (Or.inr (by norm_num))).2.1 rfl).2.2.2
      [(pystr "error", Json.str (pystr "dup"))] (Json.str (pystr "dup"))
      (by rfl) (by rfl),
    (((c6_error_taxonomy 429 [] (pystr "\x7b\"retry_after_secs\": 2.5\x7d")
            (Or.inr (by norm_num))).2.2.1 rfl).2.2.2).trans
      (by with_unfolding_all rfl),
    ((c6_error_taxonomy 401 [] [] (Or.inr (by norm_num))).2.2.2.1 (Or.inl rfl)).1,
    ((c6_error_taxonomy 500 [] [] (Or.inr (by norm_num))).2.2.2.2 (by norm_num)
        (by norm_num) (by norm_num) (by norm_num) (by norm_num)).1,
    ((c6_error_taxonomy 500 [] [] (Or.inr (by norm_num))).2.2.2.2 (by norm_num)
        (by norm_num) (by norm_num) (by norm_num) (by norm_num)).2.1⟩

/-- C7 (refuting the claim as stated): with the room list
`[{name: "general", id: "abc"}]` and the cache warmed by resolving
`"general"`, resolving `"abc"` does NOT look like an id to the code (3
characters, not 36), is not a cache key (ids are values, not keys), and
therefore triggers one listing request — not zero — and then fails with
NotFound. -/
theorem c7_resolver_counterexample :
    (resolveRoom [(pystr "general", pystr "abc")]
        (resolveRoom [(pystr "general", pystr "abc")] [] (pystr "general")).cache
        (pystr "abc")).listingRequests = 1 ∧
    (resolveRoom [(pystr "general", pystr "abc")]
        (resolveRoom [(pystr "general", pystr "abc")] [] (pystr "general")).cache
        (pystr "abc")).result = none := by
  exact ⟨rfl, rfl⟩

/-- C7 (amended): any string of the canonical identifier shape (36 characters
with the 4 separators in the fixed UUID positions) passes through unchanged
with zero listing requests; resolving `"general"` twice against the room list
`[{name: "general", id: "abc"}]` triggers exactly one listing request in
total; but resolving the short id `"abc"` triggers one further listing request
and fails with NotFound, because it neither matches the identifier shape nor
is a cache key. -/
theorem c7_resolver_amended (s : PyStr) (rooms cache : List (PyStr × PyStr))
    (hshape : uuidShapeSpec s = true) :
    resolveRoom rooms cache s = ⟨some s, cache, 0⟩ ∧
    (resolveRoom [(pystr "general", pystr "abc")] [] (pystr "general")).result =
      some (pystr "abc") ∧
    (resolveRoom [(pystr "general", pystr "abc")] [] (pystr "general")).listingRequests =
      1 ∧
    (resolveRoom [(pystr "general", pystr "abc")]
        (resolveRoom [(pystr "general", pystr "abc")] [] (pystr "general")).cache
        (pystr "general")).result = some (pystr "abc") ∧
    (resolveRoom [(pystr "general", pystr "abc")]
        (resolveRoom [(pystr "general", pystr "abc")] [] (pystr "general")).cache
        (pystr "general")).listingRequests = 0 ∧
    (resolveRoom [(pystr "general", pystr "abc")]
        (resolveRoom [(pystr "general", pystr "abc")] [] (pystr "general")).cache
        (pystr "abc")).listingRequests = 1 ∧
    (resolveRoom [(pystr "general", pystr "abc")]
        (resolveRoom [(pystr "general", pystr "abc")] [] (pystr "general")).cache
        (pystr "abc")).result = none := by
  refine ⟨?_, rfl, rfl, rfl, rfl, rfl, rfl⟩
  simp only [uuidShapeSpec, Bool.and_eq_true, beq_iff_eq] at hshape
  unfold resolveRoom
  rw [if_pos ⟨hshape.1.1, hshape.1.2⟩]

/-- Witness for C7 (amended) at a concrete canonical identifier. -/
theorem c7_resolver_amended_witness :
    resolveRoom [] [] (pystr "123e4567-e89b-12d3-a456-426614174000") =
      ⟨some (pystr "123e4567-e89b-12d3-a456-426614174000"), [], 0⟩ ∧
    (resolveRoom [(pystr "general", pystr "abc")] [] (pystr "general")).result =
      some (pystr "abc") :=
  ⟨(c7_resolver_amended (pystr "123e4567-e89b-12d3-a456-426614174000") [] []
      (by decide)).1,
    (c7_resolver_amended (pystr "123e4567-e89b-12d3-a456-426614174000") [] []
      (by decide)).2.1⟩

/-- C9 (refuting the claim as stated): an empty caller-supplied headers dict
is falsy in Python, so `headers or {}` replaces it with a fresh dict — the
request is sent with `Content-Type: application/json`, but the caller's empty
dict is NOT mutated even though it lacked a Content-Type key and a body was
present. -/
theorem c9_headers_counterexample :
    (prepareHeaders (some []) true).callerAfter = some [] ∧
    (prepareHeaders (some []) true).sent =
      [(pystr "Content-Type", pystr "application/json")] := by
  exact ⟨rfl, rfl⟩

/-- C9 (amended): when `_request` is called with a body and a NON-EMPTY
caller-supplied headers dict lacking a Content-Type key, that dict is aliased
and mutated in place — Content-Type: application/json is appended after the
existing entries, which pass through unchanged; a caller-provided Content-Type
is never overwritten; an empty caller dict is replaced by a fresh one and left
untouched. -/
theorem c9_headers_amended (h : List (PyStr × PyStr)) :
    (h ≠ [] → h.any (fun kv => kv.1 == pystr "Content-Type") = false →
      prepareHeaders (some h) true =
        ⟨h ++ [(pystr "Content-Type", pystr "application/json")],
          some (h ++ [(pystr "Content-Type", pystr "application/json")])⟩) ∧
    (h.any (fun kv => kv.1 == pystr "Content-Type") = true →
      prepareHeaders (some h) true = ⟨h, some h⟩) ∧
    (prepareHeaders (some ([] : List (PyStr × PyStr))) true).callerAfter = some [] := by
  refine ⟨?_, ?_, rfl⟩
  · intro hne hct
    have hemp : h.isEmpty = false := by
      cases h with
      | nil => exact absurd rfl hne
      | cons a t => rfl
    simp [prepareHeaders, setdefault, hemp, hct]
  · intro hct
    have hne : h ≠ [] := by
      intro h0
      subst h0
      simp at hct
    have hemp : h.isEmpty = false := by
      cases h with
      | nil => exact absurd rfl hne
      | cons a t => rfl
    simp [prepareHeaders, setdefault, hemp, hct]

/-- Witness for C9 (amended): a dict with one unrelated entry gets
Content-Type appended in place; a dict already carrying Content-Type is
untouched. -/
theorem c9_headers_amended_witness :
    prepareHeaders (some [(pystr "X-Key", pystr "v")]) true =
      ⟨[(pystr "X-Key", pystr "v"),
          (pystr "Content-Type", pystr "application/json")],
        some [(pystr "X-Key", pystr "v"),
          (pystr "Content-Type", pystr "application/json")]⟩ ∧
    prepareHeaders (some [(pystr "Content-Type", pystr "text/plain")]) true =
      ⟨[(pystr "Content-Type", pystr "text/plain")],
        some [(pystr "Content-Type", pystr "text/plain")]⟩ :=
  ⟨(c9_headers_amended [(pystr "X-Key", pystr "v")]).1 (by decide) (by decide),
    (c9_headers_amended [(pystr "Content-Type", pystr "text/plain")]).2.1 (by decide)⟩
